import Mathlib

/-!
Shallow embedding of the borz-ai server core: the chat record store
(`chat.schema.ts`), the chat service (`chat.service.ts`), the realtime
send-message pipeline (`socket.service.ts`), the JWT helpers
(`utils/auth/jwt.ts`) and the password-reset flow (`AuthService`).

Timestamps are natural numbers; the store carries a clock `now` that is
read by every `defaultNow()` column default and advanced on every commit,
modelling the single database connection assigning non-decreasing
creation times in commit order.
-/

namespace Borz

/-- Message role: the `role` column of `messages` is text with the closed
vocabulary `user` / `assistant` (chat.schema.ts). -/
inductive Role where
  | user
  | assistant
  deriving DecidableEq, BEq

/-- Row of the `messages` table (chat.schema.ts). -/
structure Message where
  id : Nat
  chatId : Nat
  content : String
  role : Role
  createdAt : Nat
  deriving DecidableEq

/-- Row of the `chats` table (chat.schema.ts). -/
structure Chat where
  id : Nat
  userId : Nat
  title : String
  createdAt : Nat
  updatedAt : Nat
  deriving DecidableEq

/-- The chat record store: the `chats` and `messages` tables, the id
allocator and the commit clock. -/
structure Store where
  chats : List Chat
  messages : List Message
  nextId : Nat
  now : Nat
  deriving DecidableEq

/-- SELECT * FROM chats WHERE id = chatId AND user_id = userId — the
ownership lookup used by the chat service and the socket handlers. -/
def selectChat (s : Store) (chatId userId : Nat) : Option Chat :=
  (s.chats.filter (fun c => c.id == chatId && c.userId == userId)).head?

/-- Insertion step of the ORDER BY created_at sort. -/
def insertByCreated (m : Message) : List Message → List Message
  | [] => [m]
  | x :: xs =>
    if m.createdAt ≤ x.createdAt then m :: x :: xs else x :: insertByCreated m xs

/-- ORDER BY messages.created_at (ascending), as an insertion sort. -/
def sortByCreated : List Message → List Message
  | [] => []
  | x :: xs => insertByCreated x (sortByCreated xs)

/-- SELECT * FROM messages WHERE chat_id = chatId ORDER BY created_at. -/
def chatMessagesOrdered (s : Store) (chatId : Nat) : List Message :=
  sortByCreated (s.messages.filter (fun m => m.chatId == chatId))

/-- One `{role, content}` history row as selected by getMessageHistory. -/
structure HistEntry where
  role : Role
  content : String
  deriving DecidableEq, BEq

/-- ChatService.getMessageHistory (chat.service.ts lines 147 to 158):
select role and content from messages of the chat, ORDER BY created_at
ascending, LIMIT 10. -/
def getMessageHistory (s : Store) (chatId : Nat) : List HistEntry :=
  ((chatMessagesOrdered s chatId).take 10).map (fun m => ⟨m.role, m.content⟩)

/-! JWT helpers, from `utils/auth/jwt.ts` (src/unnamed/part_001).
A token is modelled as its signed payload together with the expiry
instant and the secret it was signed with; `jwt.verify` succeeds exactly
when the secrets agree and the clock has not reached `exp`. -/

/-- Abstract signed JWT. `typeTag` models the optional `type` claim that
`generateResetToken` adds. -/
structure Token where
  userId : String
  email : Option String
  typeTag : Option String
  exp : Nat
  secret : Nat
  deriving DecidableEq

/-- The payload shape `verifyToken` returns (interface JwtPayload). A
reset token carries no email, hence the option. -/
structure JwtPayload where
  userId : String
  email : Option String
  deriving DecidableEq

/-- Session token lifetime: JWT_EXPIRATION defaults to 7 days, in
seconds. -/
def sessionLifetime : Nat := 604800

/-- generateToken: sign the userId/email payload with the configured
secret and the default lifetime. No type tag is attached. -/
def generateToken (secret : Nat) (userId email : String) (now : Nat) : Token :=
  ⟨userId, some email, none, now + sessionLifetime, secret⟩

/-- Model of `jwt.verify(token, JWT_SECRET)`: returns the decoded payload
iff the signature matches this secret and the token is unexpired. -/
def jwtVerify (secret : Nat) (t : Token) (now : Nat) : Option Token :=
  if t.secret == secret && now < t.exp then some t else none

/-- verifyToken (jwt.ts lines 21 to 28): `jwt.verify` then a cast to
JwtPayload; any verification failure is collapsed to an error. Note the
decoded payload is NOT inspected further — no type-tag check. -/
def verifyToken (secret : Nat) (t : Token) (now : Nat) : Except String JwtPayload :=
  match jwtVerify secret t now with
  | some d => .ok ⟨d.userId, d.email⟩
  | none => .error "Invalid token"

/-- Reset token lifetime: 1 hour, in seconds. -/
def resetLifetime : Nat := 3600

/-- generateResetToken (jwt.ts lines 30 to 33): signs userId plus the
type tag `password-reset`, expiring in one hour. -/
def generateResetToken (secret : Nat) (userId : String) (now : Nat) : Token :=
  ⟨userId, none, some "password-reset", now + resetLifetime, secret⟩

/-- The payload `verifyResetToken` returns. -/
structure ResetPayload where
  userId : String
  deriving DecidableEq

/-- verifyResetToken (jwt.ts lines 35 to 45): `jwt.verify`, then reject
any payload whose type tag is not `password-reset`; all failures give
null. -/
def verifyResetToken (secret : Nat) (t : Token) (now : Nat) : Option ResetPayload :=
  match jwtVerify secret t now with
  | some d => if d.typeTag ≠ some "password-reset" then none else some ⟨d.userId⟩
  | none => none

/-! Concrete store for the C1 failing input: one chat holding eleven
messages with creation times 1 .. 11. -/

/-- Message number `i` of the C1 store. -/
def mkMsg (i : Nat) (c : String) : Message :=
  ⟨i, 1, c, Role.user, i⟩

/-- A store whose chat 1 (owned by user 7) holds eleven messages. -/
def elevenStore : Store :=
  ⟨[⟨1, 7, "New Chat", 0, 0⟩],
   [mkMsg 1 "m1", mkMsg 2 "m2", mkMsg 3 "m3", mkMsg 4 "m4", mkMsg 5 "m5",
    mkMsg 6 "m6", mkMsg 7 "m7", mkMsg 8 "m8", mkMsg 9 "m9", mkMsg 10 "m10",
    mkMsg 11 "m11"],
   12, 12⟩

/-- C1: the claim says getMessageHistory returns the 10 most recent
messages of the chat. On a chat holding eleven messages the code (ORDER BY
created_at ascending, LIMIT 10) returns the ten EARLIEST messages m1 .. m10,
not the ten with the greatest creation times m2 .. m11: the claim describes
the intended behaviour (the spec and the inline comment in
ChatService.sendMessage both say "last 10"), the query is a slip. -/
theorem C1_getMessageHistory_earliest_ten :
    getMessageHistory elevenStore 1 =
      [⟨Role.user, "m1"⟩, ⟨Role.user, "m2"⟩, ⟨Role.user, "m3"⟩,
       ⟨Role.user, "m4"⟩, ⟨Role.user, "m5"⟩, ⟨Role.user, "m6"⟩,
       ⟨Role.user, "m7"⟩, ⟨Role.user, "m8"⟩, ⟨Role.user, "m9"⟩,
       ⟨Role.user, "m10"⟩] ∧
    getMessageHistory elevenStore 1 ≠
      [⟨Role.user, "m2"⟩, ⟨Role.user, "m3"⟩, ⟨Role.user, "m4"⟩,
       ⟨Role.user, "m5"⟩, ⟨Role.user, "m6"⟩, ⟨Role.user, "m7"⟩,
       ⟨Role.user, "m8"⟩, ⟨Role.user, "m9"⟩, ⟨Role.user, "m10"⟩,
       ⟨Role.user, "m11"⟩] := by
  constructor
  · rfl
  · decide

/-- C2 counterexample: the claim says verifyToken rejects a token issued
by generateResetToken. It does not: an unexpired reset token signed with
the same secret is accepted and an identity is returned. -/
theorem C2_counterexample_verifyToken_accepts_reset_token :
    verifyToken 0 (generateResetToken 0 "u1" 0) 10 =
      Except.ok (⟨"u1", none⟩ : JwtPayload) := by
  rfl

/-- C2 (amended): verifyResetToken returns null for a session token, and
both verifiers fail on expiry and on signature mismatch; but verifyToken
performs no type-tag check, so an unexpired reset token signed with the
same secret is ACCEPTED by verifyToken, returning its userId as an
identity. -/
theorem C2_token_type_checking (secret : Nat) (uid email : String)
    (p : Token) (now t : Nat) :
    verifyResetToken secret (generateToken secret uid email now) t = none ∧
    (t < now + resetLifetime →
      verifyToken secret (generateResetToken secret uid now) t =
        Except.ok (⟨uid, none⟩ : JwtPayload)) ∧
    (p.exp ≤ t →
      verifyToken secret p t = Except.error "Invalid token" ∧
      verifyResetToken secret p t = none) ∧
    (p.secret ≠ secret →
      verifyToken secret p t = Except.error "Invalid token" ∧
      verifyResetToken secret p t = none) := by
  refine ⟨?_, ?_, ?_, ?_⟩
  · by_cases h : t < now + sessionLifetime
    · simp [verifyResetToken, generateToken, jwtVerify, h]
    · simp [verifyResetToken, generateToken, jwtVerify, h]
  · intro ht
    simp only [resetLifetime] at ht
    simp [verifyToken, generateResetToken, jwtVerify, resetLifetime, ht]
  · intro ht
    have hx : ¬ t < p.exp := by omega
    constructor <;> simp [verifyToken, verifyResetToken, jwtVerify, hx]
  · intro hs
    constructor <;> simp [verifyToken, verifyResetToken, jwtVerify, hs]

/-- C2 witness: the amended theorem applied at concrete inputs. -/
theorem C2_token_type_checking_witness :
    verifyResetToken 5 (generateToken 5 "u" "e" 0) 3 = none ∧
    verifyToken 5 (generateResetToken 5 "u" 0) 3 =
      Except.ok (⟨"u", none⟩ : JwtPayload) ∧
    verifyToken 5 (⟨"u", none, none, 2, 5⟩ : Token) 3 =
      Except.error "Invalid token" ∧
    verifyToken 5 (⟨"u", none, none, 99, 4⟩ : Token) 3 =
      Except.error "Invalid token" := by
  refine ⟨(C2_token_type_checking 5 "u" "e" ⟨"u", none, none, 2, 5⟩ 0 3).1,
          (C2_token_type_checking 5 "u" "e" ⟨"u", none, none, 2, 5⟩ 0 3).2.1
            (by decide),
          ((C2_token_type_checking 5 "u" "e" ⟨"u", none, none, 2, 5⟩ 0 3).2.2.1
            (by decide)).1,
          ((C2_token_type_checking 5 "u" "e" ⟨"u", none, none, 99, 4⟩ 0 3).2.2.2
            (by decide)).1⟩

/-! Store write primitives: each commit reads the clock for `defaultNow()`
columns and advances it. -/

/-- INSERT INTO messages (chat_id, content, role) RETURNING *: id from the
allocator, created_at from the clock. -/
def insertMessage (s : Store) (chatId : Nat) (content : String) (role : Role) :
    Store × Message :=
  let m : Message := ⟨s.nextId, chatId, content, role, s.now⟩
  (⟨s.chats, s.messages ++ [m], s.nextId + 1, s.now + 1⟩, m)

/-- UPDATE chats SET title = title, updated_at = now() WHERE id = chatId. -/
def updateChatTitle (s : Store) (chatId : Nat) (title : String) : Store :=
  ⟨s.chats.map (fun c =>
      if c.id == chatId then { c with title := title, updatedAt := s.now } else c),
   s.messages, s.nextId, s.now + 1⟩

/-- UPDATE chats SET updated_at = now() WHERE id = chatId. -/
def touchChat (s : Store) (chatId : Nat) : Store :=
  ⟨s.chats.map (fun c =>
      if c.id == chatId then { c with updatedAt := s.now } else c),
   s.messages, s.nextId, s.now + 1⟩

/-- ChatService.saveAssistantMessage (chat.service.ts lines 161 to 178):
insert the assistant message, then bump the updated_at of the chat. -/
def saveAssistantMessage (s : Store) (chatId : Nat) (content : String) :
    Store × Message :=
  let (s1, m) := insertMessage s chatId content Role.assistant
  (touchChat s1 chatId, m)

/-- content.substring(0, n): the first n characters (JS substring clamps
to the string length). -/
def strTake (s : String) (n : Nat) : String := ⟨s.data.take n⟩

/-- The auto-title expression used by every send path:
content.substring(0, 50) plus an ellipsis when the content is longer than
50 characters. -/
def autoTitle (content : String) : String :=
  strTake content 50 ++ (if content.length > 50 then "..." else "")

/-- JS Array.prototype.findIndex: index of the first match, -1 if none. -/
def jsFindIndex (p : α → Bool) : List α → Int
  | [] => -1
  | x :: xs =>
    if p x then 0
    else
      let r := jsFindIndex p xs
      if r < 0 then -1 else r + 1

/-- The guarded trimming of the turn-shaping block (socket.service.ts
lines 93 to 100), applied to the slice(-6) window: when the window does
not open on a user turn, drop up to the first user turn (findIndex > 0),
drop everything when no user turn exists (findIndex = -1), and keep the
window otherwise. -/
def shapeWindow : List HistEntry → List HistEntry
  | [] => []
  | e :: rest =>
    if e.role == Role.user then e :: rest
    else if jsFindIndex (fun m => m.role == Role.user) (e :: rest) > 0 then
      (e :: rest).drop (jsFindIndex (fun m => m.role == Role.user) (e :: rest)).toNat
    else if jsFindIndex (fun m => m.role == Role.user) (e :: rest) == -1 then []
    else e :: rest

/-- The full turn-shaping block of the socket handlers (socket.service.ts
lines 89 to 100): slice(-6), then the guarded trimming. -/
def shapeHistory (fullHistory : List HistEntry) : List HistEntry :=
  shapeWindow (fullHistory.drop (fullHistory.length - 6))

/-! The realtime send pipeline (socket.service.ts). -/

/-- Outcome of one run of GeminiService.generateStreamingResponse: the
fragments the generator yielded, in order, and the error thrown after
them (`none` when the stream completed normally). -/
structure GenOutcome where
  chunks : List String
  failure : Option String
  deriving DecidableEq

/-- Server-to-client events emitted by the socket handlers. -/
inductive SEvent where
  | errorEv (message : String)
  | aiResponseStart (chatId : Nat)
  | messageSaved (messageId chatId : Nat) (content : String) (role : Role)
      (createdAt : Nat)
  | chatTitleUpdated (chatId : Nat) (title : String)
  | aiResponseChunk (chatId : Nat) (chunk : String)
  | aiResponseComplete (chatId : Nat) (messageId : Nat) (fullResponse : String)
      (createdAt : Nat)
  | aiResponseError (chatId : Nat) (errorMessage : String)
  deriving DecidableEq

/-- The fullResponse accumulator: fold of string append, starting empty. -/
def concatStrings (l : List String) : String := l.foldl (· ++ ·) ""

/-- Result of one socket send: the final store, the events emitted to the
sender in order, and (for the text path) the prompt and history actually
passed to the streaming call of the gateway. -/
structure SendResult where
  store : Store
  events : List SEvent
  genCall : Option (String × List HistEntry)
  deriving DecidableEq

/-- The `send-message` handler (socket.service.ts lines 71 to 188).
`gen` is the gateway stream outcome for this call. `k` is the scheduling
point of the background user-message commit: how many chunk events are
emitted before the insert resolves (the code never awaits the save during
streaming, so `message-saved` may land anywhere among the chunks; the
explicit `await saveUserMessagePromise` before saving the assistant
message is what forces the user insert to commit first). -/
def handleSendMessage (s : Store) (userId chatId : Nat) (content : String)
    (gen : GenOutcome) (k : Nat) : SendResult :=
  match selectChat s chatId userId with
  | none => ⟨s, [SEvent.errorEv "Chat not found"], none⟩
  | some chat =>
    let fullHistory := getMessageHistory s chatId
    let limitedHistory := shapeHistory fullHistory
    let (s1, userMessage) := insertMessage s chatId content Role.user
    let savedEvent := SEvent.messageSaved userMessage.id chatId content Role.user
      userMessage.createdAt
    let doTitle := chat.title == "New Chat" && fullHistory.length == 0
    let s2 := if doTitle then updateChatTitle s1 chatId (autoTitle content) else s1
    let titleEvents :=
      if doTitle then [SEvent.chatTitleUpdated chatId (autoTitle content)] else []
    let chunkEvents := gen.chunks.map (SEvent.aiResponseChunk chatId)
    let streamEvents := chunkEvents.take k ++ [savedEvent] ++ chunkEvents.drop k
    let fullResponse := concatStrings gen.chunks
    match gen.failure with
    | none =>
      let (s3, assistantMessage) := saveAssistantMessage s2 chatId fullResponse
      ⟨s3,
       SEvent.aiResponseStart chatId :: titleEvents ++ streamEvents ++
         [SEvent.aiResponseComplete chatId assistantMessage.id fullResponse
           assistantMessage.createdAt],
       some (content, limitedHistory)⟩
    | some e =>
      ⟨s2,
       SEvent.aiResponseStart chatId :: titleEvents ++ streamEvents ++
         [SEvent.aiResponseError chatId e],
       some (content, limitedHistory)⟩

/-- Chunk size of the image/document re-chunking loops. -/
def chunkSize : Nat := 100

/-- The re-chunking loop of the image and document handlers: successive
substrings of length chunkSize covering the response. -/
def chunkList : List Char → List (List Char)
  | [] => []
  | c :: cs => (c :: cs).take chunkSize :: chunkList ((c :: cs).drop chunkSize)
termination_by l => l.length
decreasing_by simp [chunkSize, List.length_drop]; omega

/-- Response re-chunking on strings. -/
def chunkify (response : String) : List String :=
  (chunkList response.toList).map (fun l => String.mk l)

/-- The `send-message-with-image` handler (socket.service.ts lines 191 to
309). `outcome` is the result of the single-shot
GeminiService.generateWithImage call; on success the response is re-chunked
into chunkSize pieces. The source prefixes the stored user content with an
image marker. -/
def handleSendMessageWithImage (s : Store) (userId chatId : Nat)
    (content : String) (outcome : Except String String) (k : Nat) : SendResult :=
  match selectChat s chatId userId with
  | none => ⟨s, [SEvent.errorEv "Chat not found"], none⟩
  | some chat =>
    let fullHistory := getMessageHistory s chatId
    let userContent := "🖼️ [Image] " ++ content
    let (s1, userMessage) := insertMessage s chatId userContent Role.user
    let savedEvent := SEvent.messageSaved userMessage.id chatId userContent Role.user
      userMessage.createdAt
    let doTitle := chat.title == "New Chat" && fullHistory.length == 0
    let newTitle := if content.isEmpty then "Image Analysis" else autoTitle content
    let s2 := if doTitle then updateChatTitle s1 chatId newTitle else s1
    let titleEvents :=
      if doTitle then [SEvent.chatTitleUpdated chatId newTitle] else []
    match outcome with
    | Except.ok response =>
      let chunks := chunkify response
      let chunkEvents := chunks.map (SEvent.aiResponseChunk chatId)
      let streamEvents := chunkEvents.take k ++ [savedEvent] ++ chunkEvents.drop k
      let fullResponse := concatStrings chunks
      let (s3, assistantMessage) := saveAssistantMessage s2 chatId fullResponse
      ⟨s3,
       SEvent.aiResponseStart chatId :: titleEvents ++ streamEvents ++
         [SEvent.aiResponseComplete chatId assistantMessage.id fullResponse
           assistantMessage.createdAt],
       none⟩
    | Except.error e =>
      ⟨s2,
       SEvent.aiResponseStart chatId :: titleEvents ++ [savedEvent] ++
         [SEvent.aiResponseError chatId e],
       none⟩

/-- The `send-message-with-document` handler (socket.service.ts lines 312
to 430); same shape as the image handler, with the document marker prefix
and title fallback. `outcome` is the result of
GeminiService.generateWithDocument (which fails for unsupported document
types). -/
def handleSendMessageWithDocument (s : Store) (userId chatId : Nat)
    (content fileName : String) (outcome : Except String String) (k : Nat) :
    SendResult :=
  match selectChat s chatId userId with
  | none => ⟨s, [SEvent.errorEv "Chat not found"], none⟩
  | some chat =>
    let fullHistory := getMessageHistory s chatId
    let userContent := "📄 [Document: " ++ fileName ++ "] " ++ content
    let (s1, userMessage) := insertMessage s chatId userContent Role.user
    let savedEvent := SEvent.messageSaved userMessage.id chatId userContent Role.user
      userMessage.createdAt
    let doTitle := chat.title == "New Chat" && fullHistory.length == 0
    let newTitle :=
      if content.isEmpty then "Document: " ++ fileName else autoTitle content
    let s2 := if doTitle then updateChatTitle s1 chatId newTitle else s1
    let titleEvents :=
      if doTitle then [SEvent.chatTitleUpdated chatId newTitle] else []
    match outcome with
    | Except.ok response =>
      let chunks := chunkify response
      let chunkEvents := chunks.map (SEvent.aiResponseChunk chatId)
      let streamEvents := chunkEvents.take k ++ [savedEvent] ++ chunkEvents.drop k
      let fullResponse := concatStrings chunks
      let (s3, assistantMessage) := saveAssistantMessage s2 chatId fullResponse
      ⟨s3,
       SEvent.aiResponseStart chatId :: titleEvents ++ streamEvents ++
         [SEvent.aiResponseComplete chatId assistantMessage.id fullResponse
           assistantMessage.createdAt],
       none⟩
    | Except.error e =>
      ⟨s2,
       SEvent.aiResponseStart chatId :: titleEvents ++ [savedEvent] ++
         [SEvent.aiResponseError chatId e],
       none⟩

/-! Chat-service operations used by C5. -/

/-- ChatService.getChatById (chat.service.ts lines 44 to 67): ownership
lookup, then the ordered message history; read-only. -/
def getChatById (s : Store) (chatId userId : Nat) :
    Except String (Chat × List Message) :=
  match selectChat s chatId userId with
  | none => Except.error "Chat not found"
  | some chat => Except.ok (chat, chatMessagesOrdered s chatId)

/-- ChatService.updateChat (chat.service.ts lines 194 to 207): UPDATE ...
WHERE id = chatId AND user_id = userId RETURNING; no matching row means no
change and a Chat-not-found error. -/
def updateChat (s : Store) (chatId userId : Nat) (title : String) :
    Except String Store :=
  let matched := s.chats.filter (fun c => c.id == chatId && c.userId == userId)
  if matched.isEmpty then Except.error "Chat not found"
  else
    Except.ok
      ⟨s.chats.map (fun c =>
          if c.id == chatId && c.userId == userId then
            { c with title := title, updatedAt := s.now }
          else c),
       s.messages, s.nextId, s.now + 1⟩

/-- ChatService.deleteChat (chat.service.ts lines 180 to 192): DELETE ...
WHERE id = chatId AND user_id = userId RETURNING; the schema cascade also
removes the messages of the deleted chat. -/
def deleteChat (s : Store) (chatId userId : Nat) : Except String Store :=
  let matched := s.chats.filter (fun c => c.id == chatId && c.userId == userId)
  if matched.isEmpty then Except.error "Chat not found"
  else
    Except.ok
      ⟨s.chats.filter (fun c => !(c.id == chatId && c.userId == userId)),
       s.messages.filter (fun m => !(m.chatId == chatId)),
       s.nextId, s.now + 1⟩

/-- ChatService.clearChatMessages (chat.service.ts lines 210 to 231):
ownership check first, then delete the messages of the chat and bump
updated_at. -/
def clearChatMessages (s : Store) (chatId userId : Nat) : Except String Store :=
  match selectChat s chatId userId with
  | none => Except.error "Chat not found"
  | some _ =>
    let s1 : Store :=
      ⟨s.chats, s.messages.filter (fun m => !(m.chatId == chatId)),
       s.nextId, s.now + 1⟩
    Except.ok (touchChat s1 chatId)

/-- ChatService.sendMessage (chat.service.ts lines 69 to 145), the legacy
non-realtime path: ownership check, insert user message, generate
(`aiResponse` is the gateway result), insert assistant message, then the
title gate on the total message count of the chat. -/
def chatServiceSendMessage (s : Store) (chatId userId : Nat) (content : String)
    (aiResponse : String) : Except String (Store × Message × Message) :=
  match selectChat s chatId userId with
  | none => Except.error "Chat not found"
  | some chat =>
    let (s1, userMessage) := insertMessage s chatId content Role.user
    let (s2, assistantMessage) := insertMessage s1 chatId aiResponse Role.assistant
    let messageCount := (s2.messages.filter (fun m => m.chatId == chatId)).length
    if chat.title == "New Chat" && messageCount == 2 then
      Except.ok (updateChatTitle s2 chatId (autoTitle content),
        userMessage, assistantMessage)
    else
      Except.ok (touchChat s2 chatId, userMessage, assistantMessage)

/-! Event extraction helpers. -/

/-- The chunk payload of an event, when it is an ai-response-chunk. -/
def chunkPayload : SEvent → Option String
  | SEvent.aiResponseChunk _ c => some c
  | _ => none

/-- Payloads of the ai-response-chunk events, in emission order. -/
def chunkPayloads (evs : List SEvent) : List String :=
  evs.filterMap chunkPayload

/-- The fullResponse field of an event, when it is an
ai-response-complete. -/
def completePayload : SEvent → Option String
  | SEvent.aiResponseComplete _ _ f _ => some f
  | _ => none

/-- The fullResponse fields of the ai-response-complete events. -/
def completePayloads (evs : List SEvent) : List String :=
  evs.filterMap completePayload

/-! Helper lemmas. -/

/-- jsFindIndex either reports no match, or a natural index at which the
remaining list opens on a match. -/
theorem jsFindIndex_spec (p : α → Bool) (l : List α) :
    jsFindIndex p l = -1 ∨
    ∃ n : Nat, jsFindIndex p l = (n : Int) ∧
      ∃ x xs, l.drop n = x :: xs ∧ p x = true := by
  induction l with
  | nil => left; rfl
  | cons a as ih =>
    by_cases h : p a
    · right
      exact ⟨0, by simp [jsFindIndex, h], a, as, by simp, h⟩
    · cases ih with
      | inl h1 => left; simp [jsFindIndex, h, h1]
      | inr h1 =>
        obtain ⟨n, hn, x, xs, hd, hp⟩ := h1
        right
        refine ⟨n + 1, ?_, x, xs, ?_, hp⟩
        · simp only [jsFindIndex, h, if_false, hn]
          have : ¬ ((n : Int) < 0) := by omega
          simp [this]
        · simpa using hd

/-- Boolean and propositional equality agree on roles. -/
theorem role_beq_iff {a b : Role} : (a == b) = true ↔ a = b := by
  cases a <;> cases b <;> decide

/-- Membership is preserved by the insertion step of the sort. -/
theorem mem_insertByCreated {a m : Message} {l : List Message} :
    a ∈ insertByCreated m l ↔ a = m ∨ a ∈ l := by
  induction l with
  | nil => simp [insertByCreated]
  | cons x xs ih =>
    by_cases h : m.createdAt ≤ x.createdAt
    · simp [insertByCreated, h]
    · simp [insertByCreated, h, ih]
      tauto

/-- Membership is preserved by the ORDER BY sort. -/
theorem mem_sortByCreated {a : Message} {l : List Message} :
    a ∈ sortByCreated l ↔ a ∈ l := by
  induction l with
  | nil => simp [sortByCreated]
  | cons x xs ih => simp [sortByCreated, mem_insertByCreated, ih]

/-- A history entry returned by getMessageHistory comes from a persisted
message of that chat. -/
theorem mem_getMessageHistory {s : Store} {chatId : Nat} {e : HistEntry}
    (he : e ∈ getMessageHistory s chatId) :
    ∃ m ∈ s.messages, m.chatId = chatId ∧ e.role = m.role ∧
      e.content = m.content := by
  simp only [getMessageHistory, List.mem_map] at he
  obtain ⟨m, hm, rfl⟩ := he
  have hm1 : m ∈ chatMessagesOrdered s chatId := List.mem_of_mem_take hm
  rw [chatMessagesOrdered, mem_sortByCreated, List.mem_filter] at hm1
  exact ⟨m, hm1.1, by simpa using hm1.2, rfl, rfl⟩

/-- Case analysis on the guarded trimming: the result is empty, or it is
some final segment of the window that opens on a user entry. -/
theorem shapeWindow_cases (w : List HistEntry) :
    shapeWindow w = [] ∨
    ∃ n x xs, shapeWindow w = w.drop n ∧ w.drop n = x :: xs ∧
      x.role = Role.user := by
  cases w with
  | nil => left; rfl
  | cons e rest =>
    by_cases he : e.role == Role.user
    · right
      exact ⟨0, e, rest, by simp [shapeWindow, he], by simp, role_beq_iff.mp he⟩
    · rcases jsFindIndex_spec (fun m => m.role == Role.user) (e :: rest) with
        hni | ⟨n, hn, x, xs, hdx, hpx⟩
      · left
        simp [shapeWindow, he, hni]
      · rcases Nat.eq_zero_or_pos n with hz | hpos
        · subst hz
          simp only [List.drop_zero] at hdx
          cases hdx
          exact absurd hpx he
        · right
          have hgt2 : (0 : Int) < (n : Int) := by exact_mod_cast hpos
          refine ⟨n, x, xs, ?_, hdx, role_beq_iff.mp (by simpa using hpx)⟩
          simp only [shapeWindow, hn]
          rw [if_neg he, if_pos hgt2]
          simp

/-- The shaped history only selects entries of its input. -/
theorem shapeHistory_subset (fullHistory : List HistEntry) :
    shapeHistory fullHistory ⊆ fullHistory := by
  rcases shapeWindow_cases (fullHistory.drop (fullHistory.length - 6)) with
    h | ⟨n, x, xs, h1, h2, h3⟩
  · rw [shapeHistory, h]
    intro a ha
    cases ha
  · rw [shapeHistory, h1]
    intro a ha
    exact List.drop_subset _ _ (List.drop_subset _ _ ha)

/-- Chunk-payload extraction over a pure chunk-event list is the
identity. -/
theorem chunkPayloads_map_chunk (chatId : Nat) (l : List String) :
    chunkPayloads (l.map (SEvent.aiResponseChunk chatId)) = l := by
  induction l with
  | nil => rfl
  | cons a as ih =>
    simp only [List.map_cons, chunkPayloads, List.filterMap_cons, chunkPayload]
    simpa [chunkPayloads] using ih

/-- Chunk-payload extraction distributes over append. -/
theorem chunkPayloads_append (a b : List SEvent) :
    chunkPayloads (a ++ b) = chunkPayloads a ++ chunkPayloads b := by
  simp [chunkPayloads, List.filterMap_append]

/-- The chunk payloads of a chunk-event list with one non-chunk event
spliced in are exactly the original chunks. -/
theorem chunkPayloads_spliced (chatId : Nat) (chunks : List String)
    (saved : SEvent) (hs : chunkPayload saved = none) (k : Nat) :
    chunkPayloads ((chunks.map (SEvent.aiResponseChunk chatId)).take k ++ [saved] ++
      (chunks.map (SEvent.aiResponseChunk chatId)).drop k) = chunks := by
  rw [chunkPayloads_append, chunkPayloads_append, ← List.map_take, ← List.map_drop,
    chunkPayloads_map_chunk, chunkPayloads_map_chunk]
  simp [chunkPayloads, hs, List.take_append_drop]

/-- Complete-payload extraction over a pure chunk-event list is empty. -/
theorem completePayloads_map_chunk (chatId : Nat) (l : List String) :
    completePayloads (l.map (SEvent.aiResponseChunk chatId)) = [] := by
  induction l with
  | nil => rfl
  | cons a as ih =>
    simp only [List.map_cons, completePayloads, List.filterMap_cons, completePayload]
    simpa [completePayloads] using ih

/-- Complete-payload extraction distributes over append. -/
theorem completePayloads_append (a b : List SEvent) :
    completePayloads (a ++ b) = completePayloads a ++ completePayloads b := by
  simp [completePayloads, List.filterMap_append]

/-- C8: the history handed to the streaming gateway call either is empty
or opens on a user-authored entry, and it is a final segment of the
slice(-6) window (leading non-user entries trimmed, everything dropped
when the window holds no user entry). -/
theorem C8_shaped_history_opens_on_user (fullHistory : List HistEntry) :
    (shapeHistory fullHistory = [] ∨
      ∃ x xs, shapeHistory fullHistory = x :: xs ∧ x.role = Role.user) ∧
    (shapeHistory fullHistory).IsSuffix
      (fullHistory.drop (fullHistory.length - 6)) := by
  rcases shapeWindow_cases (fullHistory.drop (fullHistory.length - 6)) with
    h | ⟨n, x, xs, h1, h2, h3⟩
  · constructor
    · left
      simpa [shapeHistory] using h
    · rw [shapeHistory, h]
      exact List.nil_suffix
  · constructor
    · right
      refine ⟨x, xs, ?_, h3⟩
      rw [shapeHistory, h1, h2]
    · rw [shapeHistory, h1]
      exact List.drop_suffix _ _

/-- Normal form of the store after a successful text send: the user
message is appended first, then the assistant message, at a strictly
later commit time. -/
theorem sendMessage_ok_store (s : Store) (userId chatId : Nat)
    (content : String) (chunks : List String) (k : Nat) (chat : Chat)
    (hchat : selectChat s chatId userId = some chat) :
    ∃ t, s.now < t ∧
      (handleSendMessage s userId chatId content ⟨chunks, none⟩ k).store.messages
        = s.messages ++ [⟨s.nextId, chatId, content, Role.user, s.now⟩,
            ⟨s.nextId + 1, chatId, concatStrings chunks, Role.assistant, t⟩] := by
  cases hdo : chat.title == "New Chat" && (getMessageHistory s chatId).length == 0 with
  | false =>
    refine ⟨s.now + 1, by omega, ?_⟩
    simp [handleSendMessage, hchat, hdo, insertMessage, saveAssistantMessage,
      updateChatTitle, touchChat]
  | true =>
    refine ⟨s.now + 2, by omega, ?_⟩
    simp [handleSendMessage, hchat, hdo, insertMessage, saveAssistantMessage,
      updateChatTitle, touchChat]

/-- C3: in every completed realtime text send, under any scheduling of the
background user-message save relative to the chunk emissions, the store
gains exactly the user message followed by the assistant message, and the
assistant creation time is at or after the user creation time (the handler
awaits the user-message save before persisting the assistant reply). -/
theorem C3_assistant_persisted_after_user (s : Store) (userId chatId : Nat)
    (content : String) (chunks : List String) (k : Nat) (chat : Chat)
    (hchat : selectChat s chatId userId = some chat) :
    ∃ u a, (handleSendMessage s userId chatId content ⟨chunks, none⟩ k).store.messages
        = s.messages ++ [u, a] ∧
      u.role = Role.user ∧ u.content = content ∧
      a.role = Role.assistant ∧ u.createdAt ≤ a.createdAt := by
  obtain ⟨t, ht, hm⟩ :=
    sendMessage_ok_store s userId chatId content chunks k chat hchat
  exact ⟨⟨s.nextId, chatId, content, Role.user, s.now⟩,
         ⟨s.nextId + 1, chatId, concatStrings chunks, Role.assistant, t⟩,
         hm, rfl, rfl, rfl, Nat.le_of_lt ht⟩

/-- C3 witness: a concrete completed send on a one-chat store. -/
theorem C3_assistant_persisted_after_user_witness :
    ∃ u a, (handleSendMessage ⟨[⟨1, 7, "New Chat", 0, 0⟩], [], 1, 1⟩ 7 1 "hi"
        ⟨["a", "b"], none⟩ 1).store.messages
        = ([] : List Message) ++ [u, a] ∧
      u.role = Role.user ∧ u.content = "hi" ∧
      a.role = Role.assistant ∧ u.createdAt ≤ a.createdAt :=
  C3_assistant_persisted_after_user ⟨[⟨1, 7, "New Chat", 0, 0⟩], [], 1, 1⟩ 7 1 "hi"
    ["a", "b"] 1 ⟨1, 7, "New Chat", 0, 0⟩ (by decide)

/-- Chunk payloads of a taken prefix of a chunk-event list. -/
theorem filterMap_chunkPayload_take (chatId k : Nat) (l : List String) :
    List.filterMap chunkPayload ((l.map (SEvent.aiResponseChunk chatId)).take k)
      = l.take k := by
  rw [← List.map_take]
  exact chunkPayloads_map_chunk chatId _

/-- Chunk payloads of a dropped suffix of a chunk-event list. -/
theorem filterMap_chunkPayload_drop (chatId k : Nat) (l : List String) :
    List.filterMap chunkPayload ((l.map (SEvent.aiResponseChunk chatId)).drop k)
      = l.drop k := by
  rw [← List.map_drop]
  exact chunkPayloads_map_chunk chatId _

/-- Complete payloads of a taken prefix of a chunk-event list. -/
theorem filterMap_completePayload_take (chatId k : Nat) (l : List String) :
    List.filterMap completePayload ((l.map (SEvent.aiResponseChunk chatId)).take k)
      = [] := by
  rw [← List.map_take]
  exact completePayloads_map_chunk chatId _

/-- Complete payloads of a dropped suffix of a chunk-event list. -/
theorem filterMap_completePayload_drop (chatId k : Nat) (l : List String) :
    List.filterMap completePayload ((l.map (SEvent.aiResponseChunk chatId)).drop k)
      = [] := by
  rw [← List.map_drop]
  exact completePayloads_map_chunk chatId _

/-- Event payloads of a successful text send: the chunk payloads are the
generator fragments and the single complete payload is their
concatenation. -/
theorem sendMessage_ok_events (s : Store) (userId chatId : Nat)
    (content : String) (chunks : List String) (k : Nat) (chat : Chat)
    (hchat : selectChat s chatId userId = some chat) :
    chunkPayloads (handleSendMessage s userId chatId content ⟨chunks, none⟩ k).events
      = chunks ∧
    completePayloads (handleSendMessage s userId chatId content ⟨chunks, none⟩ k).events
      = [concatStrings chunks] := by
  cases hdo : chat.title == "New Chat" && (getMessageHistory s chatId).length == 0 with
  | false =>
    constructor <;>
      simp [handleSendMessage, hchat, hdo, chunkPayloads, completePayloads,
        chunkPayload, completePayload, List.filterMap_append,
        filterMap_chunkPayload_take, filterMap_chunkPayload_drop,
        filterMap_completePayload_take, filterMap_completePayload_drop,
        insertMessage, saveAssistantMessage, touchChat, updateChatTitle]
  | true =>
    constructor <;>
      simp [handleSendMessage, hchat, hdo, chunkPayloads, completePayloads,
        chunkPayload, completePayload, List.filterMap_append,
        filterMap_chunkPayload_take, filterMap_chunkPayload_drop,
        filterMap_completePayload_take, filterMap_completePayload_drop,
        insertMessage, saveAssistantMessage, touchChat, updateChatTitle]

/-- Normal form of the store after a successful image send. -/
theorem sendImage_ok_store (s : Store) (userId chatId : Nat)
    (content response : String) (k : Nat) (chat : Chat)
    (hchat : selectChat s chatId userId = some chat) :
    ∃ t, s.now < t ∧
      (handleSendMessageWithImage s userId chatId content
          (Except.ok response) k).store.messages
        = s.messages ++
          [⟨s.nextId, chatId, "🖼️ [Image] " ++ content, Role.user, s.now⟩,
           ⟨s.nextId + 1, chatId, concatStrings (chunkify response),
             Role.assistant, t⟩] := by
  cases hdo : chat.title == "New Chat" && (getMessageHistory s chatId).length == 0 with
  | false =>
    refine ⟨s.now + 1, by omega, ?_⟩
    simp [handleSendMessageWithImage, hchat, hdo, insertMessage,
      saveAssistantMessage, updateChatTitle, touchChat]
  | true =>
    refine ⟨s.now + 2, by omega, ?_⟩
    simp [handleSendMessageWithImage, hchat, hdo, insertMessage,
      saveAssistantMessage, updateChatTitle, touchChat]

/-- Event payloads of a successful image send. -/
theorem sendImage_ok_events (s : Store) (userId chatId : Nat)
    (content response : String) (k : Nat) (chat : Chat)
    (hchat : selectChat s chatId userId = some chat) :
    chunkPayloads (handleSendMessageWithImage s userId chatId content
        (Except.ok response) k).events
      = chunkify response ∧
    completePayloads (handleSendMessageWithImage s userId chatId content
        (Except.ok response) k).events
      = [concatStrings (chunkify response)] := by
  cases hdo : chat.title == "New Chat" && (getMessageHistory s chatId).length == 0 with
  | false =>
    constructor <;>
      simp [handleSendMessageWithImage, hchat, hdo, chunkPayloads,
        completePayloads, chunkPayload, completePayload, List.filterMap_append,
        filterMap_chunkPayload_take, filterMap_chunkPayload_drop,
        filterMap_completePayload_take, filterMap_completePayload_drop,
        insertMessage, saveAssistantMessage, touchChat, updateChatTitle]
  | true =>
    constructor <;>
      simp [handleSendMessageWithImage, hchat, hdo, chunkPayloads,
        completePayloads, chunkPayload, completePayload, List.filterMap_append,
        filterMap_chunkPayload_take, filterMap_chunkPayload_drop,
        filterMap_completePayload_take, filterMap_completePayload_drop,
        insertMessage, saveAssistantMessage, touchChat, updateChatTitle]

/-- Normal form of the store after a successful document send. -/
theorem sendDocument_ok_store (s : Store) (userId chatId : Nat)
    (content fileName response : String) (k : Nat) (chat : Chat)
    (hchat : selectChat s chatId userId = some chat) :
    ∃ t, s.now < t ∧
      (handleSendMessageWithDocument s userId chatId content fileName
          (Except.ok response) k).store.messages
        = s.messages ++
          [⟨s.nextId, chatId, "📄 [Document: " ++ fileName ++ "] " ++ content,
             Role.user, s.now⟩,
           ⟨s.nextId + 1, chatId, concatStrings (chunkify response),
             Role.assistant, t⟩] := by
  cases hdo : chat.title == "New Chat" && (getMessageHistory s chatId).length == 0 with
  | false =>
    refine ⟨s.now + 1, by omega, ?_⟩
    simp [handleSendMessageWithDocument, hchat, hdo, insertMessage,
      saveAssistantMessage, updateChatTitle, touchChat]
  | true =>
    refine ⟨s.now + 2, by omega, ?_⟩
    simp [handleSendMessageWithDocument, hchat, hdo, insertMessage,
      saveAssistantMessage, updateChatTitle, touchChat]

/-- Event payloads of a successful document send. -/
theorem sendDocument_ok_events (s : Store) (userId chatId : Nat)
    (content fileName response : String) (k : Nat) (chat : Chat)
    (hchat : selectChat s chatId userId = some chat) :
    chunkPayloads (handleSendMessageWithDocument s userId chatId content fileName
        (Except.ok response) k).events
      = chunkify response ∧
    completePayloads (handleSendMessageWithDocument s userId chatId content fileName
        (Except.ok response) k).events
      = [concatStrings (chunkify response)] := by
  cases hdo : chat.title == "New Chat" && (getMessageHistory s chatId).length == 0 with
  | false =>
    constructor <;>
      simp [handleSendMessageWithDocument, hchat, hdo, chunkPayloads,
        completePayloads, chunkPayload, completePayload, List.filterMap_append,
        filterMap_chunkPayload_take, filterMap_chunkPayload_drop,
        filterMap_completePayload_take, filterMap_completePayload_drop,
        insertMessage, saveAssistantMessage, touchChat, updateChatTitle]
  | true =>
    constructor <;>
      simp [handleSendMessageWithDocument, hchat, hdo, chunkPayloads,
        completePayloads, chunkPayload, completePayload, List.filterMap_append,
        filterMap_chunkPayload_take, filterMap_chunkPayload_drop,
        filterMap_completePayload_take, filterMap_completePayload_drop,
        insertMessage, saveAssistantMessage, touchChat, updateChatTitle]

/-- C4: for every send that ends in ai-response-complete — the
text-streaming path under any scheduling of the background save, and the
image and document re-chunking paths — the concatenation of the emitted
chunk payloads, in emission order, equals the fullResponse of the unique
ai-response-complete event, and equals the assistant text persisted for
the turn. -/
theorem C4_stream_reconstruction (s : Store) (userId chatId : Nat)
    (content fileName response : String) (chunks : List String) (k : Nat)
    (chat : Chat) (hchat : selectChat s chatId userId = some chat) :
    (∃ u a, (handleSendMessage s userId chatId content
          ⟨chunks, none⟩ k).store.messages = s.messages ++ [u, a] ∧
      a.role = Role.assistant ∧
      completePayloads (handleSendMessage s userId chatId content
          ⟨chunks, none⟩ k).events = [a.content] ∧
      concatStrings (chunkPayloads (handleSendMessage s userId chatId content
          ⟨chunks, none⟩ k).events) = a.content) ∧
    (∃ u a, (handleSendMessageWithImage s userId chatId content
          (Except.ok response) k).store.messages = s.messages ++ [u, a] ∧
      a.role = Role.assistant ∧
      completePayloads (handleSendMessageWithImage s userId chatId content
          (Except.ok response) k).events = [a.content] ∧
      concatStrings (chunkPayloads (handleSendMessageWithImage s userId chatId
          content (Except.ok response) k).events) = a.content) ∧
    (∃ u a, (handleSendMessageWithDocument s userId chatId content fileName
          (Except.ok response) k).store.messages = s.messages ++ [u, a] ∧
      a.role = Role.assistant ∧
      completePayloads (handleSendMessageWithDocument s userId chatId content
          fileName (Except.ok response) k).events = [a.content] ∧
      concatStrings (chunkPayloads (handleSendMessageWithDocument s userId chatId
          content fileName (Except.ok response) k).events) = a.content) := by
  refine ⟨?_, ?_, ?_⟩
  · obtain ⟨t, ht, hm⟩ :=
      sendMessage_ok_store s userId chatId content chunks k chat hchat
    obtain ⟨hc, hf⟩ :=
      sendMessage_ok_events s userId chatId content chunks k chat hchat
    exact ⟨⟨s.nextId, chatId, content, Role.user, s.now⟩,
           ⟨s.nextId + 1, chatId, concatStrings chunks, Role.assistant, t⟩,
           hm, rfl, hf, by rw [hc]⟩
  · obtain ⟨t, ht, hm⟩ :=
      sendImage_ok_store s userId chatId content response k chat hchat
    obtain ⟨hc, hf⟩ :=
      sendImage_ok_events s userId chatId content response k chat hchat
    exact ⟨⟨s.nextId, chatId, "🖼️ [Image] " ++ content, Role.user, s.now⟩,
           ⟨s.nextId + 1, chatId, concatStrings (chunkify response),
             Role.assistant, t⟩,
           hm, rfl, hf, by rw [hc]⟩
  · obtain ⟨t, ht, hm⟩ :=
      sendDocument_ok_store s userId chatId content fileName response k chat hchat
    obtain ⟨hc, hf⟩ :=
      sendDocument_ok_events s userId chatId content fileName response k chat hchat
    exact ⟨⟨s.nextId, chatId, "📄 [Document: " ++ fileName ++ "] " ++ content,
             Role.user, s.now⟩,
           ⟨s.nextId + 1, chatId, concatStrings (chunkify response),
             Role.assistant, t⟩,
           hm, rfl, hf, by rw [hc]⟩

/-- C10: the history passed to the streaming gateway is computed from the
pre-send store: the handler records a gateway call whose history is the
shaped window of getMessageHistory on the state before the user-message
insert, and every entry of it corresponds to a message persisted before
the send was processed; the message being sent enters only as the separate
prompt argument. -/
theorem C10_prompt_history_from_prior_state (s : Store) (userId chatId : Nat)
    (content : String) (gen : GenOutcome) (k : Nat) (chat : Chat)
    (hchat : selectChat s chatId userId = some chat) :
    (handleSendMessage s userId chatId content gen k).genCall
        = some (content, shapeHistory (getMessageHistory s chatId)) ∧
    ∀ e ∈ shapeHistory (getMessageHistory s chatId),
      ∃ m ∈ s.messages, m.chatId = chatId ∧ e.role = m.role ∧
        e.content = m.content := by
  constructor
  · cases hf : gen.failure with
    | none => simp [handleSendMessage, hchat, hf]
    | some e => simp [handleSendMessage, hchat, hf]
  · intro e he
    exact mem_getMessageHistory (shapeHistory_subset _ he)

/-- C5: when no chat with this id is owned by this user — whether the chat
is absent or owned by another user — every chat-scoped operation returns
the very same Chat-not-found outcome, and the send handlers leave the
store untouched, emit one plain error event, and record no gateway
call. -/
theorem C5_cross_user_not_found (s : Store) (chatId userId : Nat)
    (title content fileName : String) (gen : GenOutcome)
    (outcome : Except String String) (k : Nat)
    (hno : ∀ c ∈ s.chats, ¬ (c.id = chatId ∧ c.userId = userId)) :
    getChatById s chatId userId = Except.error "Chat not found" ∧
    updateChat s chatId userId title = Except.error "Chat not found" ∧
    deleteChat s chatId userId = Except.error "Chat not found" ∧
    clearChatMessages s chatId userId = Except.error "Chat not found" ∧
    handleSendMessage s userId chatId content gen k
      = ⟨s, [SEvent.errorEv "Chat not found"], none⟩ ∧
    handleSendMessageWithImage s userId chatId content outcome k
      = ⟨s, [SEvent.errorEv "Chat not found"], none⟩ ∧
    handleSendMessageWithDocument s userId chatId content fileName outcome k
      = ⟨s, [SEvent.errorEv "Chat not found"], none⟩ := by
  have hfil : s.chats.filter (fun c => c.id == chatId && c.userId == userId) = [] := by
    apply List.filter_eq_nil_iff.mpr
    intro c hc h
    simp only [Bool.and_eq_true, beq_iff_eq] at h
    exact hno c hc h
  have hsel : selectChat s chatId userId = none := by
    rw [selectChat, hfil]
    rfl
  refine ⟨?_, ?_, ?_, ?_, ?_, ?_, ?_⟩
  · simp [getChatById, hsel]
  · simp [updateChat, hfil]
  · simp [deleteChat, hfil]
  · simp [clearChatMessages, hsel]
  · simp [handleSendMessage, hsel]
  · simp [handleSendMessageWithImage, hsel]
  · simp [handleSendMessageWithDocument, hsel]

/-- Taking at least the whole length of a string yields the string. -/
theorem strTake_of_le {s : String} {n : Nat} (h : s.length ≤ n) :
    strTake s n = s := by
  cases s with
  | mk data =>
    simp only [strTake]
    congr 1
    exact List.take_of_length_le h

/-- The auto-title value, phrased as the spec states it: the first 50
characters, with an ellipsis exactly when the content exceeds 50
characters. -/
theorem autoTitle_spec (content : String) :
    autoTitle content =
      (if 50 < content.length then strTake content 50 ++ "..." else content) := by
  rw [autoTitle]
  by_cases h : content.length > 50
  · simp [h]
  · simp only [if_neg h]
    have ht := strTake_of_le (s := content) (n := 50) (by omega)
    simp [ht]

/-- The insertion step never produces the empty list. -/
theorem insertByCreated_ne_nil (m : Message) (l : List Message) :
    insertByCreated m l ≠ [] := by
  cases l with
  | nil => simp [insertByCreated]
  | cons x xs =>
    rw [insertByCreated]
    split <;> simp

/-- The sort is empty only on the empty list. -/
theorem sortByCreated_eq_nil {l : List Message} :
    sortByCreated l = [] ↔ l = [] := by
  cases l with
  | nil => simp [sortByCreated]
  | cons x xs =>
    simp only [sortByCreated]
    constructor
    · intro h
      exact absurd h (insertByCreated_ne_nil x (sortByCreated xs))
    · intro h
      simp at h

/-- getMessageHistory is nonempty as soon as the chat has a message. -/
theorem getMessageHistory_ne_nil {s : Store} {chatId : Nat}
    (h : s.messages.filter (fun m => m.chatId == chatId) ≠ []) :
    getMessageHistory s chatId ≠ [] := by
  rw [getMessageHistory, chatMessagesOrdered]
  intro hx
  rw [List.map_eq_nil_iff, List.take_eq_nil_iff] at hx
  rcases hx with hx | hx
  · exact absurd hx (by omega)
  · exact h (sortByCreated_eq_nil.mp hx)

/-- Chats after a successful text send with the title gate open: the title
write happens, then the updated_at bump of saveAssistantMessage. -/
theorem sendMessage_title_chats (s : Store) (userId chatId : Nat)
    (content : String) (chunks : List String) (k : Nat) (chat : Chat)
    (hchat : selectChat s chatId userId = some chat)
    (hdo : (chat.title == "New Chat" &&
      (getMessageHistory s chatId).length == 0) = true) :
    (handleSendMessage s userId chatId content ⟨chunks, none⟩ k).store.chats
      = (s.chats.map (fun c =>
          if c.id == chatId then
            { c with title := autoTitle content, updatedAt := s.now + 1 }
          else c)).map (fun c =>
          if c.id == chatId then { c with updatedAt := s.now + 3 } else c) := by
  simp [handleSendMessage, hchat, hdo, insertMessage, updateChatTitle,
    saveAssistantMessage, touchChat]

/-- Chats after a successful text send with the title gate closed: only
the updated_at bump of saveAssistantMessage. -/
theorem sendMessage_noTitle_chats (s : Store) (userId chatId : Nat)
    (content : String) (chunks : List String) (k : Nat) (chat : Chat)
    (hchat : selectChat s chatId userId = some chat)
    (hdo : (chat.title == "New Chat" &&
      (getMessageHistory s chatId).length == 0) = false) :
    (handleSendMessage s userId chatId content ⟨chunks, none⟩ k).store.chats
      = s.chats.map (fun c =>
          if c.id == chatId then { c with updatedAt := s.now + 2 } else c) := by
  simp [handleSendMessage, hchat, hdo, insertMessage, updateChatTitle,
    saveAssistantMessage, touchChat]

/-- The chat-title-updated event is emitted when the title gate is open. -/
theorem sendMessage_title_event (s : Store) (userId chatId : Nat)
    (content : String) (chunks : List String) (k : Nat) (chat : Chat)
    (hchat : selectChat s chatId userId = some chat)
    (hdo : (chat.title == "New Chat" &&
      (getMessageHistory s chatId).length == 0) = true) :
    SEvent.chatTitleUpdated chatId (autoTitle content)
      ∈ (handleSendMessage s userId chatId content ⟨chunks, none⟩ k).events := by
  simp [handleSendMessage, hchat, hdo, insertMessage, updateChatTitle,
    saveAssistantMessage, touchChat]

/-- C6: title auto-derivation fires exactly once and yields a determined
value. Realtime path: when the selected chat still carries the sentinel
title and has no prior message, the send sets the title to the first 50
characters of the content with an ellipsis exactly when the content
exceeds 50 characters, emits the title event, and leaves a nonempty
history so the gate can never fire again; on any other send every title
is unchanged and the updatedAt of the target chat strictly advances. Legacy
REST path: the same gate (sentinel title, first exchange) writes the same
title, and otherwise titles are unchanged. -/
theorem C6_auto_title_once (s : Store) (userId chatId : Nat)
    (content aiResponse : String) (chunks : List String) (k : Nat)
    (chat : Chat)
    (hchat : selectChat s chatId userId = some chat)
    (hclock : ∀ c ∈ s.chats, c.updatedAt ≤ s.now) :
    (chat.title = "New Chat" → getMessageHistory s chatId = [] →
      (∀ c ∈ (handleSendMessage s userId chatId content
            ⟨chunks, none⟩ k).store.chats, c.id = chatId →
          c.title = (if 50 < content.length then strTake content 50 ++ "..."
            else content)) ∧
      SEvent.chatTitleUpdated chatId (autoTitle content)
        ∈ (handleSendMessage s userId chatId content ⟨chunks, none⟩ k).events ∧
      getMessageHistory
        (handleSendMessage s userId chatId content ⟨chunks, none⟩ k).store chatId
        ≠ []) ∧
    (¬ (chat.title = "New Chat" ∧ getMessageHistory s chatId = []) →
      ∀ c ∈ s.chats,
        ∃ c2 ∈ (handleSendMessage s userId chatId content
            ⟨chunks, none⟩ k).store.chats,
          c2.id = c.id ∧ c2.title = c.title ∧
          (c.id = chatId → c.updatedAt < c2.updatedAt)) ∧
    (chat.title = "New Chat" →
        s.messages.filter (fun m => m.chatId == chatId) = [] →
      ∀ s2 u a, chatServiceSendMessage s chatId userId content aiResponse
          = Except.ok (s2, u, a) →
        ∀ c ∈ s2.chats, c.id = chatId →
          c.title = (if 50 < content.length then strTake content 50 ++ "..."
            else content)) ∧
    (¬ (chat.title = "New Chat" ∧
          s.messages.filter (fun m => m.chatId == chatId) = []) →
      ∀ s2 u a, chatServiceSendMessage s chatId userId content aiResponse
          = Except.ok (s2, u, a) →
        ∀ c ∈ s.chats, ∃ c2 ∈ s2.chats, c2.id = c.id ∧ c2.title = c.title) := by
  refine ⟨?_, ?_, ?_, ?_⟩
  · intro hti hh
    have hdo : (chat.title == "New Chat" &&
        (getMessageHistory s chatId).length == 0) = true := by
      simp [hti, hh]
    refine ⟨?_, sendMessage_title_event s userId chatId content chunks k chat
        hchat hdo, ?_⟩
    · intro c hc hid
      rw [sendMessage_title_chats s userId chatId content chunks k chat hchat hdo,
        List.map_map] at hc
      obtain ⟨c0, hc0, rfl⟩ := List.mem_map.mp hc
      by_cases h0 : (c0.id == chatId) = true
      · simp [Function.comp, h0, autoTitle_spec]
      · exfalso
        simp only [Function.comp, h0, Bool.false_eq_true, if_false] at hid
        exact h0 (beq_iff_eq.mpr hid)
    · obtain ⟨t, ht, hm⟩ :=
        sendMessage_ok_store s userId chatId content chunks k chat hchat
      apply getMessageHistory_ne_nil
      rw [hm]
      simp [List.filter_append]
  · intro hclosed c hc
    have hdo : (chat.title == "New Chat" &&
        (getMessageHistory s chatId).length == 0) = false := by
      by_cases hti : chat.title = "New Chat"
      · have hh : getMessageHistory s chatId ≠ [] := fun hh => hclosed ⟨hti, hh⟩
        simp [hti, hh, List.length_eq_zero]
      · simp [hti]
    rw [sendMessage_noTitle_chats s userId chatId content chunks k chat hchat hdo]
    by_cases h0 : (c.id == chatId) = true
    · refine ⟨({ c with updatedAt := s.now + 2 } : Chat), ?_, rfl, rfl, ?_⟩
      · exact List.mem_map.mpr ⟨c, hc, by simp [h0]⟩
      · intro hid
        have hcle := hclock c hc
        show c.updatedAt < s.now + 2
        omega
    · refine ⟨c, ?_, rfl, rfl, ?_⟩
      · exact List.mem_map.mpr ⟨c, hc, by simp [h0]⟩
      · intro hid
        exact absurd (beq_iff_eq.mpr hid) h0
  · intro hti hfil0 s2 u a hok c hc hid
    rw [chatServiceSendMessage] at hok
    rw [hchat] at hok
    simp only [insertMessage, List.filter_append, hfil0, hti] at hok
    simp [List.nil_append, List.filter_cons] at hok
    obtain ⟨hs2, hu, ha⟩ := hok
    subst hs2
    simp only [updateChatTitle] at hc
    obtain ⟨c0, hc0, rfl⟩ := List.mem_map.mp hc
    by_cases h0 : (c0.id == chatId) = true
    · simp [h0, autoTitle_spec]
    · exfalso
      simp only [if_neg h0] at hid
      exact h0 (beq_iff_eq.mpr hid)
  · intro hclosed s2 u a hok c hc
    have hgate : (chat.title == "New Chat" &&
        ((s.messages ++ ([⟨s.nextId, chatId, content, Role.user, s.now⟩] : List Message) ++
          ([⟨s.nextId + 1, chatId, aiResponse, Role.assistant, s.now + 1⟩] : List Message)).filter
            (fun m => m.chatId == chatId)).length == 2) = false := by
      by_cases hti : chat.title = "New Chat"
      · have hf : s.messages.filter (fun m => m.chatId == chatId) ≠ [] :=
          fun hf => hclosed ⟨hti, hf⟩
        have hlen : 0 < (s.messages.filter (fun m => m.chatId == chatId)).length :=
          List.length_pos.mpr hf
        simp only [hti, beq_self_eq_true, Bool.true_and, List.filter_append,
          List.filter_cons, List.filter_nil, if_true, List.length_append,
          List.length_cons, List.length_nil]
        rw [beq_eq_false_iff_ne]
        omega
      · simp [hti]
    rw [chatServiceSendMessage] at hok
    rw [hchat] at hok
    simp only [insertMessage] at hok
    rw [hgate] at hok
    simp only [Bool.false_eq_true, if_false, Except.ok.injEq, Prod.mk.injEq] at hok
    obtain ⟨hs2, hu, ha⟩ := hok
    subst hs2
    simp only [touchChat]
    refine ⟨_, List.mem_map.mpr ⟨c, hc, rfl⟩, ?_, ?_⟩
    · by_cases h0 : (c.id == chatId) = true <;> simp [h0]
    · by_cases h0 : (c.id == chatId) = true <;> simp [h0]

/-- Boolean inequality of the two role constructors. -/
theorem user_beq_assistant : (Role.user == Role.assistant) = false := rfl

/-- C7: when generation fails after ai-response-start, the handler emits
ai-response-error with the failure message, emits no complete event, and
persists no assistant message — shown for the text path (stream failing
after yielding fragments, under any save scheduling) and for the document
path (single-shot failure, e.g. an unsupported document type). -/
theorem C7_generation_failure_persists_no_assistant (s : Store)
    (userId chatId : Nat) (content fileName err : String)
    (chunks : List String) (k : Nat) (chat : Chat)
    (hchat : selectChat s chatId userId = some chat) :
    (SEvent.aiResponseStart chatId
        ∈ (handleSendMessage s userId chatId content ⟨chunks, some err⟩ k).events ∧
      SEvent.aiResponseError chatId err
        ∈ (handleSendMessage s userId chatId content ⟨chunks, some err⟩ k).events ∧
      completePayloads
        (handleSendMessage s userId chatId content ⟨chunks, some err⟩ k).events
        = [] ∧
      (handleSendMessage s userId chatId content
          ⟨chunks, some err⟩ k).store.messages.filter
          (fun m => m.role == Role.assistant)
        = s.messages.filter (fun m => m.role == Role.assistant)) ∧
    (SEvent.aiResponseStart chatId
        ∈ (handleSendMessageWithDocument s userId chatId content fileName
            (Except.error err) k).events ∧
      SEvent.aiResponseError chatId err
        ∈ (handleSendMessageWithDocument s userId chatId content fileName
            (Except.error err) k).events ∧
      completePayloads (handleSendMessageWithDocument s userId chatId content
          fileName (Except.error err) k).events = [] ∧
      (handleSendMessageWithDocument s userId chatId content fileName
          (Except.error err) k).store.messages.filter
          (fun m => m.role == Role.assistant)
        = s.messages.filter (fun m => m.role == Role.assistant)) := by
  constructor
  · cases hdo : chat.title == "New Chat" &&
        (getMessageHistory s chatId).length == 0 with
    | false =>
      refine ⟨?_, ?_, ?_, ?_⟩ <;>
        simp [handleSendMessage, hchat, hdo, insertMessage, updateChatTitle,
          completePayloads, completePayload, List.filter_append,
          List.filter_cons, List.filterMap_append, user_beq_assistant,
          filterMap_completePayload_take, filterMap_completePayload_drop]
    | true =>
      refine ⟨?_, ?_, ?_, ?_⟩ <;>
        simp [handleSendMessage, hchat, hdo, insertMessage, updateChatTitle,
          completePayloads, completePayload, List.filter_append,
          List.filter_cons, List.filterMap_append, user_beq_assistant,
          filterMap_completePayload_take, filterMap_completePayload_drop]
  · cases hdo : chat.title == "New Chat" &&
        (getMessageHistory s chatId).length == 0 with
    | false =>
      refine ⟨?_, ?_, ?_, ?_⟩ <;>
        simp [handleSendMessageWithDocument, hchat, hdo, insertMessage,
          updateChatTitle, completePayloads, completePayload,
          List.filter_append, List.filter_cons, List.filterMap_append,
          user_beq_assistant]
    | true =>
      refine ⟨?_, ?_, ?_, ?_⟩ <;>
        simp [handleSendMessageWithDocument, hchat, hdo, insertMessage,
          updateChatTitle, completePayloads, completePayload,
          List.filter_append, List.filter_cons, List.filterMap_append,
          user_beq_assistant]

/-! The password-reset flow: `users` and `password_resets` rows
(auth.schema.ts) and AuthService.forgotPassword / resetPassword. -/

/-- Row of the `users` table, restricted to the fields the reset flow
touches. -/
structure UserRec where
  id : String
  email : String
  password : String
  deriving DecidableEq

/-- Row of the `password_resets` table. -/
structure ResetRecord where
  id : Nat
  userId : String
  token : Token
  expiresAt : Nat
  used : Bool
  deriving DecidableEq

/-- The auth store: the two tables, an id allocator for reset rows, and
the clock. -/
structure AuthStore where
  users : List UserRec
  resets : List ResetRecord
  nextId : Nat
  now : Nat
  deriving DecidableEq

/-- Model of bcrypt hashing: an injective tag, adequate because the reset
claims never invert it. -/
def hashPassword (p : String) : String := "hashed:" ++ p

/-- AuthService.forgotPassword (AuthService lines 203 to 234): look up the
user by email; when present, issue a reset token and insert a
password_resets row expiring in one hour (the row expiry and the signed
token expiry denote the same instant). -/
def forgotPassword (secret : Nat) (s : AuthStore) (email : String) :
    AuthStore × Option Token :=
  match (s.users.filter (fun u => u.email == email)).head? with
  | none => (s, none)
  | some u =>
    let resetToken := generateResetToken secret u.id s.now
    (⟨s.users,
      s.resets ++ [⟨s.nextId, u.id, resetToken, s.now + resetLifetime, false⟩],
      s.nextId + 1, s.now⟩,
     some resetToken)

/-- AuthService.resetPassword (AuthService lines 239 to 279): verify the
reset token, find the matching unused reset row, reject when absent or
past expiry, then update the user password and mark the row used. -/
def resetPassword (secret : Nat) (s : AuthStore) (tok : Token)
    (newPassword : String) (now : Nat) : Except String AuthStore :=
  match verifyResetToken secret tok now with
  | none => Except.error "Invalid or expired reset token"
  | some decoded =>
    match (s.resets.filter (fun r => r.token == tok && r.used == false)).head? with
    | none => Except.error "Invalid or expired reset token"
    | some r0 =>
      if r0.expiresAt < now then Except.error "Invalid or expired reset token"
      else
        Except.ok
          ⟨s.users.map (fun u =>
              if u.id == decoded.userId then
                { u with password := hashPassword newPassword }
              else u),
            s.resets.map (fun r =>
              if r.id == r0.id then { r with used := true } else r),
            s.nextId, s.now⟩

/-- The head of a list is a member. -/
theorem head?_mem {l : List α} {a : α} (h : l.head? = some a) : a ∈ l := by
  cases l with
  | nil => cases h
  | cons x xs =>
    simp only [List.head?_cons, Option.some.injEq] at h
    exact h ▸ List.mem_cons_self x xs

/-- C9: a password reset succeeds only when the matching reset row is
unused and not past its expiry and the signed token itself is still
within its lifetime; success marks the row used, used rows are never
reverted, and — when the token string matches a single row — any second
use of the same token fails with the invalid-or-expired outcome at every
later time, expired or not. -/
theorem C9_reset_token_single_use (secret : Nat) (s s2 : AuthStore)
    (tok : Token) (pw : String) (now : Nat)
    (hok : resetPassword secret s tok pw now = Except.ok s2) :
    (∃ r0 ∈ s.resets, r0.token = tok ∧ r0.used = false ∧
      ¬ r0.expiresAt < now ∧ now < tok.exp ∧
      (⟨r0.id, r0.userId, r0.token, r0.expiresAt, true⟩ : ResetRecord)
        ∈ s2.resets) ∧
    (∀ r ∈ s.resets, r.used = true →
      ∃ r2 ∈ s2.resets, r2.id = r.id ∧ r2.used = true) ∧
    ((∀ r1 ∈ s.resets, ∀ r2 ∈ s.resets,
        r1.token = tok → r2.token = tok → r1 = r2) →
      ∀ pw2 now2, resetPassword secret s2 tok pw2 now2
        = Except.error "Invalid or expired reset token") := by
  rw [resetPassword] at hok
  cases hv : verifyResetToken secret tok now with
  | none =>
    rw [hv] at hok
    cases hok
  | some decoded =>
    rw [hv] at hok
    cases hh : (s.resets.filter (fun r => r.token == tok && r.used == false)).head? with
    | none =>
      rw [hh] at hok
      cases hok
    | some r0 =>
      rw [hh] at hok
      dsimp only at hok
      by_cases hexp : r0.expiresAt < now
      · rw [if_pos hexp] at hok
        cases hok
      · rw [if_neg hexp] at hok
        simp only [Except.ok.injEq] at hok
        subst hok
        have hr0f := head?_mem hh
        have hr0 := List.mem_filter.mp hr0f
        obtain ⟨hr0mem, hr0cond⟩ := hr0
        simp only [Bool.and_eq_true, beq_iff_eq] at hr0cond
        obtain ⟨hr0tok, hr0used⟩ := hr0cond
        have hr0used2 : r0.used = false := by
          simpa using hr0used
        have hexp2 : now < tok.exp := by
          rw [verifyResetToken, jwtVerify] at hv
          by_cases hc : (tok.secret == secret && decide (now < tok.exp)) = true
          · simp only [Bool.and_eq_true, decide_eq_true_eq] at hc
            exact hc.2
          · rw [if_neg hc] at hv
            cases hv
        refine ⟨⟨r0, hr0mem, hr0tok, hr0used2, hexp, hexp2, ?_⟩, ?_, ?_⟩
        · refine List.mem_map.mpr ⟨r0, hr0mem, ?_⟩
          simp
        · intro r hr hru
          refine ⟨_, List.mem_map.mpr ⟨r, hr, rfl⟩, ?_, ?_⟩
          · by_cases h0 : (r.id == r0.id) = true <;> simp [h0]
          · by_cases h0 : (r.id == r0.id) = true <;> simp [h0, hru]
        · intro huniq pw2 now2
          rw [resetPassword]
          cases hv2 : verifyResetToken secret tok now2 with
          | none => rfl
          | some d2 =>
            have hfil2 : (List.map (fun r =>
                if r.id == r0.id then { r with used := true } else r) s.resets).filter
                  (fun r => r.token == tok && r.used == false) = [] := by
              apply List.filter_eq_nil_iff.mpr
              intro x hx hcond
              obtain ⟨r, hr, rfl⟩ := List.mem_map.mp hx
              simp only [Bool.and_eq_true, beq_iff_eq] at hcond
              obtain ⟨hxt, hxu⟩ := hcond
              have hrt : r.token = tok := by
                by_cases h0 : r.id = r0.id
                · simpa [h0] using hxt
                · simpa [h0] using hxt
              have hre : r = r0 := huniq r hr r0 hr0mem hrt hr0tok
              subst hre
              simp at hxu
            rw [hfil2]
            rfl

/-! Concrete stores used by the witnesses. -/

/-- A store with one chat (id 1, owner 7, sentinel title) and no
messages. -/
def wStore : Store := ⟨[⟨1, 7, "New Chat", 0, 0⟩], [], 1, 1⟩

/-- The chat row of wStore. -/
def wChat : Chat := ⟨1, 7, "New Chat", 0, 0⟩

/-- A concrete reset token signed with secret 5 at time 0. -/
def wToken : Token := generateResetToken 5 "u1" 0

/-- An auth store holding one user and one unused reset row for wToken. -/
def wAuth : AuthStore := ⟨[⟨"u1", "e@x", "p"⟩], [⟨0, "u1", wToken, 3600, false⟩], 1, 0⟩

/-- wAuth after a successful reset at time 10 with new password "np". -/
def wAuth2 : AuthStore :=
  ⟨[⟨"u1", "e@x", "hashed:np"⟩], [⟨0, "u1", wToken, 3600, true⟩], 1, 0⟩

/-- C4 witness: the reconstruction property at a concrete send. -/
theorem C4_stream_reconstruction_witness :
    (∃ u a, (handleSendMessage wStore 7 1 "hi"
          ⟨["ab", "c"], none⟩ 1).store.messages = wStore.messages ++ [u, a] ∧
      a.role = Role.assistant ∧
      completePayloads (handleSendMessage wStore 7 1 "hi"
          ⟨["ab", "c"], none⟩ 1).events = [a.content] ∧
      concatStrings (chunkPayloads (handleSendMessage wStore 7 1 "hi"
          ⟨["ab", "c"], none⟩ 1).events) = a.content) ∧
    (∃ u a, (handleSendMessageWithImage wStore 7 1 "hi"
          (Except.ok "resp") 1).store.messages = wStore.messages ++ [u, a] ∧
      a.role = Role.assistant ∧
      completePayloads (handleSendMessageWithImage wStore 7 1 "hi"
          (Except.ok "resp") 1).events = [a.content] ∧
      concatStrings (chunkPayloads (handleSendMessageWithImage wStore 7 1
          "hi" (Except.ok "resp") 1).events) = a.content) ∧
    (∃ u a, (handleSendMessageWithDocument wStore 7 1 "hi" "f"
          (Except.ok "resp") 1).store.messages = wStore.messages ++ [u, a] ∧
      a.role = Role.assistant ∧
      completePayloads (handleSendMessageWithDocument wStore 7 1 "hi"
          "f" (Except.ok "resp") 1).events = [a.content] ∧
      concatStrings (chunkPayloads (handleSendMessageWithDocument wStore 7 1
          "hi" "f" (Except.ok "resp") 1).events) = a.content) :=
  C4_stream_reconstruction wStore 7 1 "hi" "f" "resp" ["ab", "c"] 1 wChat
    (by decide)

/-- C5 witness: user 9 probing the chat owned by user 7. -/
theorem C5_cross_user_not_found_witness :
    getChatById wStore 1 9 = Except.error "Chat not found" ∧
    updateChat wStore 1 9 "t" = Except.error "Chat not found" ∧
    deleteChat wStore 1 9 = Except.error "Chat not found" ∧
    clearChatMessages wStore 1 9 = Except.error "Chat not found" ∧
    handleSendMessage wStore 9 1 "hi" ⟨["x"], none⟩ 0
      = ⟨wStore, [SEvent.errorEv "Chat not found"], none⟩ ∧
    handleSendMessageWithImage wStore 9 1 "hi" (Except.ok "r") 0
      = ⟨wStore, [SEvent.errorEv "Chat not found"], none⟩ ∧
    handleSendMessageWithDocument wStore 9 1 "hi" "f" (Except.ok "r") 0
      = ⟨wStore, [SEvent.errorEv "Chat not found"], none⟩ :=
  C5_cross_user_not_found wStore 1 9 "t" "hi" "f" ⟨["x"], none⟩
    (Except.ok "r") 0 (by decide)

/-- C6 witness: the auto-title property at a concrete send. -/
theorem C6_auto_title_once_witness :
    (wChat.title = "New Chat" → getMessageHistory wStore 1 = [] →
      (∀ c ∈ (handleSendMessage wStore 7 1 "hello"
            ⟨["x"], none⟩ 0).store.chats, c.id = 1 →
          c.title = (if 50 < ("hello" : String).length
            then strTake "hello" 50 ++ "..." else "hello")) ∧
      SEvent.chatTitleUpdated 1 (autoTitle "hello")
        ∈ (handleSendMessage wStore 7 1 "hello" ⟨["x"], none⟩ 0).events ∧
      getMessageHistory
        (handleSendMessage wStore 7 1 "hello" ⟨["x"], none⟩ 0).store 1
        ≠ []) ∧
    (¬ (wChat.title = "New Chat" ∧ getMessageHistory wStore 1 = []) →
      ∀ c ∈ wStore.chats,
        ∃ c2 ∈ (handleSendMessage wStore 7 1 "hello"
            ⟨["x"], none⟩ 0).store.chats,
          c2.id = c.id ∧ c2.title = c.title ∧
          (c.id = 1 → c.updatedAt < c2.updatedAt)) ∧
    (wChat.title = "New Chat" →
        wStore.messages.filter (fun m => m.chatId == 1) = [] →
      ∀ s2 u a, chatServiceSendMessage wStore 1 7 "hello" "resp"
          = Except.ok (s2, u, a) →
        ∀ c ∈ s2.chats, c.id = 1 →
          c.title = (if 50 < ("hello" : String).length
            then strTake "hello" 50 ++ "..." else "hello")) ∧
    (¬ (wChat.title = "New Chat" ∧
          wStore.messages.filter (fun m => m.chatId == 1) = []) →
      ∀ s2 u a, chatServiceSendMessage wStore 1 7 "hello" "resp"
          = Except.ok (s2, u, a) →
        ∀ c ∈ wStore.chats, ∃ c2 ∈ s2.chats, c2.id = c.id ∧ c2.title = c.title) :=
  C6_auto_title_once wStore 7 1 "hello" "resp" ["x"] 0 wChat (by decide)
    (by decide)

/-- C7 witness: a failing generation at a concrete send. -/
theorem C7_generation_failure_witness :
    (SEvent.aiResponseStart 1
        ∈ (handleSendMessage wStore 7 1 "hi" ⟨["x"], some "boom"⟩ 0).events ∧
      SEvent.aiResponseError 1 "boom"
        ∈ (handleSendMessage wStore 7 1 "hi" ⟨["x"], some "boom"⟩ 0).events ∧
      completePayloads
        (handleSendMessage wStore 7 1 "hi" ⟨["x"], some "boom"⟩ 0).events
        = [] ∧
      (handleSendMessage wStore 7 1 "hi"
          ⟨["x"], some "boom"⟩ 0).store.messages.filter
          (fun m => m.role == Role.assistant)
        = wStore.messages.filter (fun m => m.role == Role.assistant)) ∧
    (SEvent.aiResponseStart 1
        ∈ (handleSendMessageWithDocument wStore 7 1 "hi" "f"
            (Except.error "boom") 0).events ∧
      SEvent.aiResponseError 1 "boom"
        ∈ (handleSendMessageWithDocument wStore 7 1 "hi" "f"
            (Except.error "boom") 0).events ∧
      completePayloads (handleSendMessageWithDocument wStore 7 1 "hi"
          "f" (Except.error "boom") 0).events = [] ∧
      (handleSendMessageWithDocument wStore 7 1 "hi" "f"
          (Except.error "boom") 0).store.messages.filter
          (fun m => m.role == Role.assistant)
        = wStore.messages.filter (fun m => m.role == Role.assistant)) :=
  C7_generation_failure_persists_no_assistant wStore 7 1 "hi" "f" "boom"
    ["x"] 0 wChat (by decide)

/-- C9 witness: a concrete successful reset and its consequences. -/
theorem C9_reset_token_single_use_witness :
    (∃ r0 ∈ wAuth.resets, r0.token = wToken ∧ r0.used = false ∧
      ¬ r0.expiresAt < 10 ∧ 10 < wToken.exp ∧
      (⟨r0.id, r0.userId, r0.token, r0.expiresAt, true⟩ : ResetRecord)
        ∈ wAuth2.resets) ∧
    (∀ r ∈ wAuth.resets, r.used = true →
      ∃ r2 ∈ wAuth2.resets, r2.id = r.id ∧ r2.used = true) ∧
    ((∀ r1 ∈ wAuth.resets, ∀ r2 ∈ wAuth.resets,
        r1.token = wToken → r2.token = wToken → r1 = r2) →
      ∀ pw2 now2, resetPassword 5 wAuth2 wToken pw2 now2
        = Except.error "Invalid or expired reset token") :=
  C9_reset_token_single_use 5 wAuth wAuth2 wToken "np" 10 (by rfl)

/-- C10 witness: the prompt-history property at a concrete send. -/
theorem C10_prompt_history_witness :
    (handleSendMessage wStore 7 1 "hi" ⟨["x"], none⟩ 0).genCall
        = some ("hi", shapeHistory (getMessageHistory wStore 1)) ∧
    ∀ e ∈ shapeHistory (getMessageHistory wStore 1),
      ∃ m ∈ wStore.messages, m.chatId = 1 ∧ e.role = m.role ∧
        e.content = m.content :=
  C10_prompt_history_from_prior_state wStore 7 1 "hi" ⟨["x"], none⟩ 0 wChat
    (by decide)

end Borz
